import Mathlib

/-!
Shallow embedding of the `async_combinator` Python package.

The package wraps a single pending asynchronous computation in an
`AsyncCombinator` object and offers composition operators (`map`, `then`,
`or_else`, `map_err`, `map_ok_or_else`, `unwrap_or_else`).  Driving a
computation (awaiting it) produces either a success value or a raised
Python exception.

Modelling choices:
* A Python exception object is `PyError`: `ident` models the object's
  identity (CPython `id`), `tag` its class name, `arg` the value it
  carries, and `cause` the identity of the exception it is causally
  chained to (`__cause__` / displayed context), `none` when there is no
  visible causal link.  A bare `raise` re-raises the very same object, so
  it preserves the whole `PyError` value; `raise x from None` keeps the
  object but clears its causal link (`raiseFromNone`).
* Driving an awaitable resolves to `Except PyError α`: `.ok v` models the
  computation yielding `v`, `.error e` models it raising `e`.
* A value handed to the `AsyncCombinator` constructor is a `PyValue`:
  either a genuine awaitable (represented by the outcome driving it
  produces) or an arbitrary non-awaitable object (represented by its type
  name); awaiting the latter fails with an `AttributeError` about the
  missing `__await__` attribute, raised only at drive time.
* Each `async def ..._coro` body in the source is translated to a function
  from the receiver's drive outcome to the coroutine's drive outcome,
  paired with instrumentation: how many times each caller-supplied
  function was invoked during the drive and, where relevant, how many
  await points the coroutine body passed through.  Caller-supplied Python
  callables may raise when called, so they are modelled as returning
  `Except PyError _`.
-/

namespace AsyncCombinatorSpec

/-- The value carried by a Python exception (its `args` payload): an
integer, a string, or nothing. -/
inductive PyArg where
  | intArg : Int → PyArg
  | strArg : String → PyArg
  | noneArg : PyArg
deriving DecidableEq

/-- A Python exception object.  `ident` models object identity, `tag` the
exception class name, `arg` the carried value, and `cause` the identity of
the exception this one is causally chained to (`none` when the chain is
absent or was cleared with `raise ... from None`). -/
structure PyError where
  ident : Nat
  tag : String
  arg : PyArg
  cause : Option Nat
deriving DecidableEq

/-- Outcome of driving an asynchronous computation: a yielded value or a
raised exception. -/
abbrev PyResult (α : Type) := Except PyError α

/-- `raise x from None` (source lines `raise f_e from None` /
`raise e_e from None`): the same exception object is re-raised but its
visible causal chain is cleared. -/
def raiseFromNone (e : PyError) : PyError := { e with cause := none }

/-- The exception produced when a stored non-awaitable object of type
`typeName` is awaited: `self._awaitable.__await__()` fails the attribute
lookup, so an `AttributeError` naming the missing `__await__` attribute is
raised. -/
def nonAwaitableError (typeName : String) : PyError :=
  { ident := 0
    tag := "AttributeError"
    arg := .strArg (typeName ++ " object has no attribute __await__")
    cause := none }

/-- A Python value handed to the `AsyncCombinator` constructor: either a
genuine awaitable, represented by the outcome driving it yields, or a
non-awaitable object, represented by its type name. -/
inductive PyValue (α : Type) where
  | awaitable : PyResult α → PyValue α
  | nonAwaitable : String → PyValue α

/-- Awaiting a stored value: an awaitable resolves to its outcome; a
non-awaitable object raises at drive time. -/
def drivePyValue {α : Type} : PyValue α → PyResult α
  | .awaitable r => r
  | .nonAwaitable t => .error (nonAwaitableError t)

/-- `class AsyncCombinator[T]`: holds exactly the value passed to
`__init__` in the `_awaitable` slot; the constructor performs no
validation. -/
structure AsyncCombinator (α : Type) where
  _awaitable : PyValue α

/-- Awaiting an `AsyncCombinator` (`__await__` delegates to the stored
value's `__await__`). -/
def AsyncCombinator.drive {α : Type} (c : AsyncCombinator α) : PyResult α :=
  drivePyValue c._awaitable

/-- `error_guard(*classes)` from `_error_guard.py`: the returned guard
checks whether the exception's class is among the given classes
(`isinstance`, with classes identified by name). -/
def error_guard (classes : List String) : PyError → Bool :=
  fun e => classes.contains e.tag

/-- Body of `map_coro` (`return f(await self)`): drive `self`; on a raised
exception it propagates and `f` is not called; on a yielded value call `f`
once, and its result (or the exception it raises) is the outcome.  Returns
the outcome paired with the number of invocations of `f`. -/
def map_coro {α β : Type} (self : PyResult α) (f : α → Except PyError β) :
    PyResult β × Nat :=
  match self with
  | .ok v => (f v, 1)
  | .error e => (.error e, 0)

/-- Body of `then_coro` (`return await f(await self)`): drive `self`; on a
raised exception it propagates and `f` is not called; on a yielded value
call `f` once and drive the awaitable it returns, that drive's outcome
becoming the coroutine's outcome.  Returns the outcome paired with the
number of invocations of `f`. -/
def then_coro {α β : Type} (self : PyResult α) (f : α → PyValue β) :
    PyResult β × Nat :=
  match self with
  | .ok v => (drivePyValue (f v), 1)
  | .error e => (.error e, 0)

/-- Body of `or_else_coro`: drive `self` inside `try`; a yielded value is
returned; on a raised exception `e`, if `error_guard e` holds the recovery
awaitable `f e` is driven and its outcome returned, otherwise the bare
`raise` re-raises the original exception object.  Returns the outcome, the
number of invocations of `f`, and the number of await points passed
(awaiting `self`, plus awaiting `f e` on the recovery path). -/
def or_else_coro {α : Type} (self : PyResult α) (f : PyError → PyValue α)
    (error_guard : PyError → Bool) : PyResult α × Nat × Nat :=
  match self with
  | .ok v => (.ok v, 0, 1)
  | .error e =>
    if error_guard e then (drivePyValue (f e), 1, 2)
    else (.error e, 0, 1)

/-- Body of `map_err_coro`: drive `self` inside `try`; a yielded value is
returned; on a raised exception `e`, if `error_guard e` holds then `f e`
is called once — if it raises `f_e`, `raise f_e from None` raises that
exception with its causal chain cleared; if it instead returns normally
the returned value is dropped and control falls through to the bare
`raise`, re-raising the original exception.  When the guard fails the bare
`raise` re-raises the original exception.  Returns the outcome paired with
the number of invocations of `f`. -/
def map_err_coro {α γ : Type} (self : PyResult α)
    (f : PyError → Except PyError γ) (error_guard : PyError → Bool) :
    PyResult α × Nat :=
  match self with
  | .ok v => (.ok v, 0)
  | .error e =>
    if error_guard e then
      match f e with
      | .error f_e => (.error (raiseFromNone f_e), 1)
      | .ok _ => (.error e, 1)
    else (.error e, 0)

/-- Body of `map_ok_or_else_coro`: drive `self` inside `try`; on a yielded
value, `f result` is evaluated after the `try` block and its result (or
the exception it raises) is the outcome; on a raised exception `_e`, if
`error_guard _e` holds then `e _e` is called once — if it raises `e_e`,
`raise e_e from None` raises that exception with its causal chain cleared,
and if it returns normally the value is dropped and the bare `raise`
re-raises the original; when the guard fails the bare `raise` re-raises
the original and neither function is called.  Returns the outcome, the
number of invocations of `f`, and the number of invocations of `e`. -/
def map_ok_or_else_coro {α β γ : Type} (self : PyResult α)
    (f : α → Except PyError β) (e : PyError → Except PyError γ)
    (error_guard : PyError → Bool) : PyResult β × Nat × Nat :=
  match self with
  | .ok result => (f result, 1, 0)
  | .error he =>
    if error_guard he then
      match e he with
      | .error e_e => (.error (raiseFromNone e_e), 0, 1)
      | .ok _ => (.error he, 0, 1)
    else (.error he, 0, 0)

/-- Body of `unwrap_or_else_coro`: drive `self` inside `try`; a yielded
value is returned; on a raised exception `e`, if `error_guard e` holds,
`f e` is called synchronously and its result (or the exception it raises)
is the outcome, with no further await; otherwise the bare `raise`
re-raises the original exception.  Returns the outcome, the number of
invocations of `f`, and the number of await points passed (always exactly
one: the await of `self`). -/
def unwrap_or_else_coro {α : Type} (self : PyResult α)
    (f : PyError → Except PyError α) (error_guard : PyError → Bool) :
    PyResult α × Nat × Nat :=
  match self with
  | .ok v => (.ok v, 0, 1)
  | .error e =>
    if error_guard e then (f e, 1, 1)
    else (.error e, 0, 1)

/-- `AsyncCombinator.map`: wraps `map_coro()` in a new combinator. -/
def AsyncCombinator.map {α β : Type} (c : AsyncCombinator α)
    (f : α → Except PyError β) : AsyncCombinator β :=
  ⟨.awaitable (map_coro c.drive f).1⟩

/-- `AsyncCombinator.then`: wraps `then_coro()` in a new combinator. -/
def AsyncCombinator.then {α β : Type} (c : AsyncCombinator α)
    (f : α → PyValue β) : AsyncCombinator β :=
  ⟨.awaitable (then_coro c.drive f).1⟩

/-- `AsyncCombinator.or_else`: wraps `or_else_coro()` in a new
combinator. -/
def AsyncCombinator.or_else {α : Type} (c : AsyncCombinator α)
    (f : PyError → PyValue α) (error_guard : PyError → Bool) :
    AsyncCombinator α :=
  ⟨.awaitable (or_else_coro c.drive f error_guard).1⟩

/-- `AsyncCombinator.map_err`: wraps `map_err_coro()` in a new
combinator. -/
def AsyncCombinator.map_err {α γ : Type} (c : AsyncCombinator α)
    (f : PyError → Except PyError γ) (error_guard : PyError → Bool) :
    AsyncCombinator α :=
  ⟨.awaitable (map_err_coro c.drive f error_guard).1⟩

/-- `AsyncCombinator.map_ok_or_else`: wraps `map_ok_or_else_coro()` in a
new combinator. -/
def AsyncCombinator.map_ok_or_else {α β γ : Type} (c : AsyncCombinator α)
    (f : α → Except PyError β) (e : PyError → Except PyError γ)
    (error_guard : PyError → Bool) : AsyncCombinator β :=
  ⟨.awaitable (map_ok_or_else_coro c.drive f e error_guard).1⟩

/-- `AsyncCombinator.unwrap_or_else`: wraps `unwrap_or_else_coro()` in a
new combinator. -/
def AsyncCombinator.unwrap_or_else {α : Type} (c : AsyncCombinator α)
    (f : PyError → Except PyError α) (error_guard : PyError → Bool) :
    AsyncCombinator α :=
  ⟨.awaitable (unwrap_or_else_coro c.drive f error_guard).1⟩

/-- Concrete scenario data: the exception object `ValueError("e")`. -/
def valueErrorE : PyError :=
  { ident := 20, tag := "ValueError", arg := .strArg "e", cause := none }

/-- Concrete scenario data: a handler raising `KeyError(len(e.args[0]))`.
The freshly raised exception is implicitly context-chained to the handled
one (modelled by its `cause` field) until `raise ... from None` clears the
chain. -/
def keyErrorHandler : PyError → Except PyError Nat :=
  fun e =>
    .error { ident := 21, tag := "KeyError"
             arg := .intArg (match e.arg with | .strArg s => (s.length : Int) | _ => 0)
             cause := some e.ident }

/- Driving the combinator an operator returns is driving the coroutine the
operator wrapped; these unfolding lemmas are shared by the theorems
below. -/

theorem map_drive {α β : Type} (c : AsyncCombinator α)
    (f : α → Except PyError β) :
    (c.map f).drive = (map_coro c.drive f).1 := rfl

theorem then_drive {α β : Type} (c : AsyncCombinator α) (f : α → PyValue β) :
    (c.then f).drive = (then_coro c.drive f).1 := rfl

theorem or_else_drive {α : Type} (c : AsyncCombinator α)
    (f : PyError → PyValue α) (g : PyError → Bool) :
    (c.or_else f g).drive = (or_else_coro c.drive f g).1 := rfl

theorem map_err_drive {α γ : Type} (c : AsyncCombinator α)
    (f : PyError → Except PyError γ) (g : PyError → Bool) :
    (c.map_err f g).drive = (map_err_coro c.drive f g).1 := rfl

theorem map_ok_or_else_drive {α β γ : Type} (c : AsyncCombinator α)
    (f : α → Except PyError β) (e : PyError → Except PyError γ)
    (g : PyError → Bool) :
    (c.map_ok_or_else f e g).drive = (map_ok_or_else_coro c.drive f e g).1 :=
  rfl

theorem unwrap_or_else_drive {α : Type} (c : AsyncCombinator α)
    (f : PyError → Except PyError α) (g : PyError → Bool) :
    (c.unwrap_or_else f g).drive = (unwrap_or_else_coro c.drive f g).1 := rfl

/-- C1: if the wrapped computation yields `v`, driving `map f` yields
`f v` and `f` is invoked exactly once; if it raises, `f` is never invoked
and the identical exception object propagates. -/
theorem map_applies_f_once_or_propagates_error
    {α β : Type} (c : AsyncCombinator α) (f : α → β) :
    (∀ v : α, c.drive = .ok v →
      (c.map (fun x => .ok (f x))).drive = .ok (f v) ∧
      (map_coro c.drive (fun x => .ok (f x))).2 = 1) ∧
    (∀ e : PyError, c.drive = .error e →
      (c.map (fun x => .ok (f x))).drive = .error e ∧
      (map_coro c.drive (fun x => .ok (f x))).2 = 0) := by
  refine ⟨fun v h => ?_, fun e h => ?_⟩ <;>
    rw [map_drive, h] <;> exact ⟨rfl, rfl⟩

/-- Witness for C1 at concrete inputs: a computation yielding `5` mapped
through doubling drives to `10` with one invocation, and a computation
raising `ValueError("e")` propagates it with no invocation. -/
theorem map_applies_f_once_or_propagates_error_witness :
    (((⟨.awaitable (.ok 5)⟩ : AsyncCombinator Nat).map
        (fun x => .ok (x * 2))).drive = .ok (5 * 2) ∧
      (map_coro ((⟨.awaitable (.ok 5)⟩ : AsyncCombinator Nat).drive)
        (fun x => .ok (x * 2))).2 = 1) ∧
    (((⟨.awaitable (.error valueErrorE)⟩ : AsyncCombinator Nat).map
        (fun x => .ok (x * 2))).drive = .error valueErrorE ∧
      (map_coro ((⟨.awaitable (.error valueErrorE)⟩ : AsyncCombinator Nat).drive)
        (fun x => .ok (x * 2))).2 = 0) :=
  ⟨(map_applies_f_once_or_propagates_error ⟨.awaitable (.ok 5)⟩
      (fun x => x * 2)).1 5 rfl,
   (map_applies_f_once_or_propagates_error ⟨.awaitable (.error valueErrorE)⟩
      (fun x => x * 2)).2 valueErrorE rfl⟩

/-- C7: driving `c.then f` first drives `c`; on success it invokes `f`
once and drives the awaitable `f` returned, yielding that inner outcome;
on failure of `c` the exception propagates and `f` is skipped entirely.
The concrete scenario: a computation yielding `1` chained with
`then(n => computation_yielding(n + 1))` drives to `2`. -/
theorem then_drives_inner_computation_or_skips_f
    {α β : Type} (c : AsyncCombinator α) (f : α → PyValue β) :
    (∀ v : α, c.drive = .ok v →
      (c.then f).drive = drivePyValue (f v) ∧
      (then_coro c.drive f).2 = 1) ∧
    (∀ e : PyError, c.drive = .error e →
      (c.then f).drive = .error e ∧ (then_coro c.drive f).2 = 0) ∧
    ((⟨.awaitable (.ok 1)⟩ : AsyncCombinator Nat).then
      (fun n => .awaitable (.ok (n + 1)))).drive = .ok 2 := by
  refine ⟨fun v h => ?_, fun e h => ?_, rfl⟩ <;>
    rw [then_drive, h] <;> exact ⟨rfl, rfl⟩

/-- Witness for C7 at concrete inputs: success chains into the inner
computation, failure skips `f`. -/
theorem then_drives_inner_computation_or_skips_f_witness :
    (((⟨.awaitable (.ok 1)⟩ : AsyncCombinator Nat).then
        (fun n => .awaitable (.ok (n + 1)))).drive
          = drivePyValue (PyValue.awaitable (.ok (1 + 1))) ∧
      (then_coro ((⟨.awaitable (.ok 1)⟩ : AsyncCombinator Nat).drive)
        (fun n => .awaitable (.ok (n + 1)))).2 = 1) ∧
    (((⟨.awaitable (.error valueErrorE)⟩ : AsyncCombinator Nat).then
        (fun n => .awaitable (.ok (n + 1)))).drive = .error valueErrorE ∧
      (then_coro ((⟨.awaitable (.error valueErrorE)⟩ : AsyncCombinator Nat).drive)
        (fun n => .awaitable (.ok (n + 1)))).2 = 0) :=
  ⟨(then_drives_inner_computation_or_skips_f ⟨.awaitable (.ok 1)⟩
      (fun n => .awaitable (.ok (n + 1)))).1 1 rfl,
   (then_drives_inner_computation_or_skips_f ⟨.awaitable (.error valueErrorE)⟩
      (fun n => .awaitable (.ok (n + 1)))).2.1 valueErrorE rfl⟩

/-- C8: for pure `f` and `g`, `c.map f |>.map g` drives to exactly the
same outcome as `c.map (g ∘ f)`: the same value on success, the same
raised exception on failure. -/
theorem map_map_fusion {α β γ : Type} (c : AsyncCombinator α)
    (f : α → β) (g : β → γ) :
    ((c.map (fun x => .ok (f x))).map (fun y => .ok (g y))).drive
      = (c.map (fun x => .ok (g (f x)))).drive := by
  rw [map_drive, map_drive, map_drive]
  cases c.drive <;> rfl

/-- C9: the constructor stores any value unvalidated (construction is
total and the stored slot is exactly the input); a non-awaitable input
fails only when driven, with an error naming the missing `__await__`
attribute. -/
theorem init_stores_unvalidated_fails_only_on_drive
    {α : Type} (v : PyValue α) (t : String) :
    (AsyncCombinator.mk v)._awaitable = v ∧
    (AsyncCombinator.mk (.nonAwaitable t) : AsyncCombinator α).drive
      = .error (nonAwaitableError t) ∧
    (nonAwaitableError t).tag = "AttributeError" ∧
    (nonAwaitableError t).arg
      = .strArg (t ++ " object has no attribute __await__") :=
  ⟨rfl, rfl, rfl, rfl⟩

/-- Concrete scenario data: the exception object `KeyError("x")`,
carrying a causal-chain link to some earlier exception. -/
def keyErrorX : PyError :=
  { ident := 30, tag := "KeyError", arg := .strArg "x", cause := some 7 }

/-- Concrete guard: `isinstance(e, ValueError)`, built with
`error_guard`. -/
def isValueError : PyError → Bool := error_guard ["ValueError"]

/-- A combinator wrapping a computation that yields `5`. -/
def yieldsFive : AsyncCombinator Nat := ⟨.awaitable (.ok 5)⟩

/-- A combinator wrapping a computation that raises `ValueError("e")`. -/
def raisesValueError : AsyncCombinator Nat := ⟨.awaitable (.error valueErrorE)⟩

/-- A combinator wrapping a computation that raises `KeyError("x")`. -/
def raisesKeyError : AsyncCombinator Nat := ⟨.awaitable (.error keyErrorX)⟩

/-- C2: when the wrapped computation raises `e` and the guard rejects it,
every guarded operator leaves the caller-supplied error continuation
uninvoked and re-raises the very same exception object — the full
`PyError` value, its identity and its causal-chain field included, with no
wrapping. -/
theorem guard_false_is_transparent
    {α β γ δ : Type} (c : AsyncCombinator α) (e : PyError)
    (g : PyError → Bool) (fo : PyError → PyValue α)
    (fm : PyError → Except PyError γ) (fk : α → Except PyError β)
    (fe : PyError → Except PyError δ) (fu : PyError → Except PyError α)
    (h : c.drive = .error e) (hg : g e = false) :
    (c.or_else fo g).drive = .error e ∧
    (or_else_coro c.drive fo g).2.1 = 0 ∧
    (c.map_err fm g).drive = .error e ∧
    (map_err_coro c.drive fm g).2 = 0 ∧
    (c.map_ok_or_else fk fe g).drive = .error e ∧
    (map_ok_or_else_coro c.drive fk fe g).2 = (0, 0) ∧
    (c.unwrap_or_else fu g).drive = .error e ∧
    (unwrap_or_else_coro c.drive fu g).2.1 = 0 := by
  rw [or_else_drive, map_err_drive, map_ok_or_else_drive,
    unwrap_or_else_drive, h]
  simp [or_else_coro, map_err_coro, map_ok_or_else_coro,
    unwrap_or_else_coro, hg]

/-- Witness for C2: a computation raising `KeyError("x")` (whose `cause`
field is populated) passed through all four guarded operators with the
`isinstance(e, ValueError)` guard re-raises the identical object and never
invokes a continuation. -/
theorem guard_false_is_transparent_witness :
    (raisesKeyError.or_else (fun _ => .awaitable (.ok 0))
        isValueError).drive = .error keyErrorX ∧
    (or_else_coro raisesKeyError.drive (fun _ => .awaitable (.ok 0))
        isValueError).2.1 = 0 ∧
    (raisesKeyError.map_err (fun _ => (.ok 0 : Except PyError Nat))
        isValueError).drive = .error keyErrorX ∧
    (map_err_coro raisesKeyError.drive (fun _ => (.ok 0 : Except PyError Nat))
        isValueError).2 = 0 ∧
    (raisesKeyError.map_ok_or_else (fun v => (.ok v : Except PyError Nat))
        (fun _ => (.ok 0 : Except PyError Nat)) isValueError).drive
      = .error keyErrorX ∧
    (map_ok_or_else_coro raisesKeyError.drive
        (fun v => (.ok v : Except PyError Nat))
        (fun _ => (.ok 0 : Except PyError Nat)) isValueError).2 = (0, 0) ∧
    (raisesKeyError.unwrap_or_else (fun _ => (.ok 0 : Except PyError Nat))
        isValueError).drive = .error keyErrorX ∧
    (unwrap_or_else_coro raisesKeyError.drive
        (fun _ => (.ok 0 : Except PyError Nat)) isValueError).2.1 = 0 :=
  guard_false_is_transparent raisesKeyError keyErrorX isValueError
    (fun _ => .awaitable (.ok 0)) (fun _ => .ok 0) (fun v => .ok v)
    (fun _ => .ok 0) (fun _ => .ok 0) rfl rfl

/-- C3: `or_else` passes a yielded value through untouched without calling
`f`; on a guard-matched exception it drives the recovery computation
`f e`, whose outcome — success or failure — is the final outcome; on a
guard-mismatched exception the original re-raises and `f` is never
invoked. -/
theorem or_else_recovers_on_matching_error
    {α : Type} (c : AsyncCombinator α) (f : PyError → PyValue α)
    (g : PyError → Bool) :
    (∀ v : α, c.drive = .ok v →
      (c.or_else f g).drive = .ok v ∧
      or_else_coro c.drive f g = (.ok v, 0, 1)) ∧
    (∀ e : PyError, c.drive = .error e → g e = true →
      (c.or_else f g).drive = drivePyValue (f e) ∧
      or_else_coro c.drive f g = (drivePyValue (f e), 1, 2)) ∧
    (∀ e : PyError, c.drive = .error e → g e = false →
      (c.or_else f g).drive = .error e ∧
      or_else_coro c.drive f g = (.error e, 0, 1)) := by
  refine ⟨fun v h => ?_, fun e h hg => ?_, fun e h hg => ?_⟩ <;>
    rw [or_else_drive, h]
  · exact ⟨rfl, rfl⟩
  · simp [or_else_coro, hg]
  · simp [or_else_coro, hg]

/-- Witness for C3: recovery at a matched `ValueError` drives the
recovery awaitable to `99`; a yielded `5` passes through untouched. -/
theorem or_else_recovers_on_matching_error_witness :
    ((raisesValueError.or_else (fun _ => .awaitable (.ok 99))
        isValueError).drive = .ok 99 ∧
      or_else_coro raisesValueError.drive (fun _ => .awaitable (.ok 99))
        isValueError = (.ok 99, 1, 2)) ∧
    ((yieldsFive.or_else (fun _ => .awaitable (.ok 99))
        isValueError).drive = .ok 5 ∧
      or_else_coro yieldsFive.drive (fun _ => .awaitable (.ok 99))
        isValueError = (.ok 5, 0, 1)) :=
  ⟨(or_else_recovers_on_matching_error raisesValueError
      (fun _ => .awaitable (.ok 99)) isValueError).2.1 valueErrorE rfl rfl,
   (or_else_recovers_on_matching_error yieldsFive
      (fun _ => .awaitable (.ok 99)) isValueError).1 5 rfl⟩

/-- C4: on a guard-matched exception `e`, `map_err` invokes `f e`; the
exception `f` raises becomes the chain's new raised exception; `raise
... from None` clears its causal-chain field, so the outcome carries no
causal link to `e` and the original is discarded.  Concretely,
`ValueError("e")` through a handler raising `KeyError(len(message))`
drives to a `KeyError` carrying the value `1` and no cause. -/
theorem map_err_replaces_matching_error
    {α γ : Type} (c : AsyncCombinator α) (f : PyError → Except PyError γ)
    (g : PyError → Bool) :
    (∀ (e f_e : PyError), c.drive = .error e → g e = true →
      f e = .error f_e →
      (c.map_err f g).drive = .error (raiseFromNone f_e) ∧
      (raiseFromNone f_e).cause = none ∧
      (map_err_coro c.drive f g).2 = 1) ∧
    (raisesValueError.map_err keyErrorHandler isValueError).drive
      = .error { ident := 21, tag := "KeyError", arg := .intArg 1
                 cause := none } := by
  refine ⟨fun e f_e h hg hf => ?_, rfl⟩
  rw [map_err_drive, h]
  simp [map_err_coro, hg, hf, raiseFromNone]

/-- Witness for C4: the general statement applied at the concrete
`ValueError("e")` scenario. -/
theorem map_err_replaces_matching_error_witness :
    (raisesValueError.map_err keyErrorHandler isValueError).drive
      = .error (raiseFromNone
          { ident := 21, tag := "KeyError", arg := .intArg 1
            cause := some 20 }) ∧
    (raiseFromNone
        { ident := 21, tag := "KeyError", arg := .intArg 1
          cause := some 20 }).cause = none ∧
    (map_err_coro raisesValueError.drive keyErrorHandler isValueError).2
      = 1 :=
  (map_err_replaces_matching_error raisesValueError keyErrorHandler
      isValueError).1 valueErrorE
    { ident := 21, tag := "KeyError", arg := .intArg 1, cause := some 20 }
    rfl rfl rfl

/-- C5: `unwrap_or_else` passes a yielded value through with `f`
uninvoked; on a guard-matched exception the outcome is `f e`, computed
synchronously — the await counter stays at the single await of the
receiver, so no further asynchronous driving happens on the recovery path
(and if `f` raises, that exception is the outcome); on a guard mismatch
the original exception re-raises. -/
theorem unwrap_or_else_synchronous_fallback
    {α : Type} (c : AsyncCombinator α) (f : PyError → Except PyError α)
    (g : PyError → Bool) :
    (∀ v : α, c.drive = .ok v →
      (c.unwrap_or_else f g).drive = .ok v ∧
      unwrap_or_else_coro c.drive f g = (.ok v, 0, 1)) ∧
    (∀ e : PyError, c.drive = .error e → g e = true →
      (c.unwrap_or_else f g).drive = f e ∧
      unwrap_or_else_coro c.drive f g = (f e, 1, 1)) ∧
    (∀ e : PyError, c.drive = .error e → g e = false →
      (c.unwrap_or_else f g).drive = .error e ∧
      unwrap_or_else_coro c.drive f g = (.error e, 0, 1)) := by
  refine ⟨fun v h => ?_, fun e h hg => ?_, fun e h hg => ?_⟩ <;>
    rw [unwrap_or_else_drive, h]
  · exact ⟨rfl, rfl⟩
  · simp [unwrap_or_else_coro, hg]
  · simp [unwrap_or_else_coro, hg]

/-- Witness for C5: the matched `ValueError` produces the synchronous
fallback `42` after exactly one await; a yielded `5` passes through. -/
theorem unwrap_or_else_synchronous_fallback_witness :
    ((raisesValueError.unwrap_or_else (fun _ => .ok 42)
        isValueError).drive = .ok 42 ∧
      unwrap_or_else_coro raisesValueError.drive (fun _ => .ok 42)
        isValueError = (.ok 42, 1, 1)) ∧
    ((yieldsFive.unwrap_or_else (fun _ => .ok 42) isValueError).drive
        = .ok 5 ∧
      unwrap_or_else_coro yieldsFive.drive (fun _ => .ok 42) isValueError
        = (.ok 5, 0, 1)) :=
  ⟨(unwrap_or_else_synchronous_fallback raisesValueError (fun _ => .ok 42)
      isValueError).2.1 valueErrorE rfl rfl,
   (unwrap_or_else_synchronous_fallback yieldsFive (fun _ => .ok 42)
      isValueError).1 5 rfl⟩

/-- C6: `map_ok_or_else` applies the success continuation to a yielded
value; on a guard-matched exception it invokes the error continuation,
whose raised exception (its causal chain cleared by `raise ... from
None`) becomes the outcome; on a guard mismatch the original exception
re-raises and neither continuation is invoked. -/
theorem map_ok_or_else_coalesces
    {α β γ : Type} (c : AsyncCombinator α) (okf : α → β)
    (err : PyError → Except PyError γ) (g : PyError → Bool) :
    (∀ v : α, c.drive = .ok v →
      (c.map_ok_or_else (fun x => .ok (okf x)) err g).drive
        = .ok (okf v) ∧
      (map_ok_or_else_coro c.drive (fun x => .ok (okf x)) err g).2
        = (1, 0)) ∧
    (∀ (e e_e : PyError), c.drive = .error e → g e = true →
      err e = .error e_e →
      (c.map_ok_or_else (fun x => .ok (okf x)) err g).drive
        = .error (raiseFromNone e_e) ∧
      (map_ok_or_else_coro c.drive (fun x => .ok (okf x)) err g).2
        = (0, 1)) ∧
    (∀ e : PyError, c.drive = .error e → g e = false →
      (c.map_ok_or_else (fun x => .ok (okf x)) err g).drive = .error e ∧
      (map_ok_or_else_coro c.drive (fun x => .ok (okf x)) err g).2
        = (0, 0)) := by
  refine ⟨fun v h => ?_, fun e e_e h hg he => ?_, fun e h hg => ?_⟩ <;>
    rw [map_ok_or_else_drive, h]
  · exact ⟨rfl, rfl⟩
  · simp [map_ok_or_else_coro, hg, he]
  · simp [map_ok_or_else_coro, hg]

/-- Witness for C6: a yielded `5` maps through doubling to `10`; the
matched `ValueError("e")` is replaced by the handler's raised
`KeyError(1)`. -/
theorem map_ok_or_else_coalesces_witness :
    ((yieldsFive.map_ok_or_else (fun x => .ok (x * 2)) keyErrorHandler
        isValueError).drive = .ok (5 * 2) ∧
      (map_ok_or_else_coro yieldsFive.drive (fun x => .ok (x * 2))
        keyErrorHandler isValueError).2 = (1, 0)) ∧
    ((raisesValueError.map_ok_or_else (fun x => .ok (x * 2))
        keyErrorHandler isValueError).drive
        = .error (raiseFromNone
            { ident := 21, tag := "KeyError", arg := .intArg 1
              cause := some 20 }) ∧
      (map_ok_or_else_coro raisesValueError.drive (fun x => .ok (x * 2))
        keyErrorHandler isValueError).2 = (0, 1)) :=
  ⟨(map_ok_or_else_coalesces yieldsFive (fun x => x * 2) keyErrorHandler
      isValueError).1 5 rfl,
   (map_ok_or_else_coalesces raisesValueError (fun x => x * 2)
      keyErrorHandler isValueError).2.1 valueErrorE
    { ident := 21, tag := "KeyError", arg := .intArg 1, cause := some 20 }
    rfl rfl rfl⟩

/-- C10: when a guard-matched exception is handled by a must-raise
continuation that returns normally instead of raising, `map_err` and
`map_ok_or_else` fall through to the bare `raise`: the returned value is
discarded, no fallback value is produced, and the original exception
re-raises unchanged. -/
theorem must_raise_handler_returning_reraises_original
    {α β γ δ : Type} (c : AsyncCombinator α) (g : PyError → Bool)
    (retv : PyError → γ) (okf : α → Except PyError β)
    (retw : PyError → δ) (e : PyError)
    (h : c.drive = .error e) (hg : g e = true) :
    (c.map_err (fun er => .ok (retv er)) g).drive = .error e ∧
    (map_err_coro c.drive (fun er => .ok (retv er)) g).2 = 1 ∧
    (c.map_ok_or_else okf (fun er => .ok (retw er)) g).drive
      = .error e ∧
    (map_ok_or_else_coro c.drive okf (fun er => .ok (retw er)) g).2
      = (0, 1) := by
  rw [map_err_drive, map_ok_or_else_drive, h]
  simp [map_err_coro, map_ok_or_else_coro, hg]

/-- Witness for C10: handlers returning `7` on the matched
`ValueError("e")` are invoked, their value dropped, and the original
exception re-raised. -/
theorem must_raise_handler_returning_reraises_original_witness :
    (raisesValueError.map_err (fun er => .ok ((fun _ => 7) er))
        isValueError).drive = .error valueErrorE ∧
    (map_err_coro raisesValueError.drive
        (fun er => .ok ((fun _ => 7) er)) isValueError).2 = 1 ∧
    (raisesValueError.map_ok_or_else (fun v => (.ok v : Except PyError Nat))
        (fun er => .ok ((fun _ => 7) er)) isValueError).drive
      = .error valueErrorE ∧
    (map_ok_or_else_coro raisesValueError.drive
        (fun v => (.ok v : Except PyError Nat))
        (fun er => .ok ((fun _ => 7) er)) isValueError).2 = (0, 1) :=
  must_raise_handler_returning_reraises_original raisesValueError
    isValueError (fun _ => (7 : Nat)) (fun v => .ok v)
    (fun _ => (7 : Nat)) valueErrorE rfl rfl

end AsyncCombinatorSpec
